import Mathlib

set_option maxHeartbeats 1000000

namespace Llxt

/- HTTP status constants, from src/internal/http/fetch.go. -/

def statusNotFound : Nat := 404

def statusRateLimited : Nat := 429

def statusBadRequest : Nat := 400

/- Error code constants, from the errs package (codes file). -/

def CodeNotFound : String := "not_found"

def CodeNetworkFailure : String := "network_failure"

def CodeRateLimited : String := "rate_limited"

/-- Structured error value assembled by the oops builder chains in fetch.go:
`code` is set by `.Code(...)`, `url` / `status` / `retry_after` by `.With(...)`,
`hint` by `.Hint(...)`, `msg` by `.Errorf` / `.Wrapf`, and `wrapped` holds the
underlying cause when the builder ends in `.Wrapf(err, ...)`. -/
structure OopsError where
  code : String
  url : Option String
  status : Option Nat
  retry_after : Option String
  hint : Option String
  msg : String
  wrapped : Option String
  deriving DecidableEq, Repr

/-- Go `http.Header.Get`: the value of the first header with the given key,
or the empty string when the header is absent. -/
def headerGet (hs : List (String × String)) (k : String) : String :=
  match hs.find? (fun p => p.1 == k) with
  | some p => p.2
  | none => ""

/-- Outcome of `f.client.R().Get(url)` as observed by `Fetcher.Fetch`: either
the client returned an error with no HTTP response, or it produced a final
response with a status code, headers and a body. -/
inductive FetchOutcome where
  | err (m : String)
  | resp (status : Nat) (headers : List (String × String)) (body : String)
  deriving DecidableEq, Repr

/-- `Fetcher.Fetch` from src/internal/http/fetch.go, with the client call's
outcome passed in explicitly. Mirrors the Go branch chain: client error,
then status 404, then 429, then >= 400, else success with the body. -/
def Fetch (url : String) (out : FetchOutcome) : String × Option OopsError :=
  match out with
  | FetchOutcome.err m =>
    ("", some { code := CodeNetworkFailure, url := some url, status := none,
                retry_after := none, hint := none,
                msg := "failed to fetch content", wrapped := some m })
  | FetchOutcome.resp s hs b =>
    if s = statusNotFound then
      ("", some { code := CodeNotFound, url := some url, status := some s,
                  retry_after := none, hint := none,
                  msg := "resource not found", wrapped := none })
    else if s = statusRateLimited then
      ("", some { code := CodeRateLimited, url := some url, status := none,
                  retry_after := some (headerGet hs "Retry-After"),
                  hint := some "Wait before retrying or use a different source",
                  msg := "rate limited by server", wrapped := none })
    else if statusBadRequest ≤ s then
      ("", some { code := CodeNetworkFailure, url := some url, status := some s,
                  retry_after := none, hint := none,
                  msg := "HTTP error: " ++ toString s, wrapped := none })
    else (b, none)

/-- `Fetcher.FetchLLMsTxt` from src/internal/http/fetch.go: `targetURL := url;
if full && fullURL != nil \x7b targetURL = *fullURL \x7d; return f.Fetch(targetURL)`.
`outcomeOf` models what the underlying client produces for each URL. -/
def FetchLLMsTxt (outcomeOf : String → FetchOutcome) (url : String)
    (fullURL : Option String) (full : Bool) : String × Option OopsError :=
  let targetURL :=
    match full, fullURL with
    | true, some fu => fu
    | _, _ => url
  Fetch targetURL (outcomeOf targetURL)

/- Go time.Duration values, in nanoseconds. -/

def timeMillisecond : Nat := 1000000

def timeSecond : Nat := 1000000000

/-- `Config` from the httpclient package: durations in nanoseconds. -/
structure Config where
  Timeout : Nat
  RetryCount : Nat
  RetryWaitTime : Nat
  RetryMaxWaitTime : Nat
  Verbose : Bool
  deriving DecidableEq, Repr

def defaultTimeout : Nat := 30 * timeSecond

def defaultRetryCount : Nat := 3

def defaultRetryWaitTime : Nat := 100 * timeMillisecond

def defaultRetryMaxWaitTime : Nat := 2 * timeSecond

/-- `DefaultConfig` from the httpclient package. -/
def DefaultConfig : Config :=
  { Timeout := defaultTimeout
    RetryCount := defaultRetryCount
    RetryWaitTime := defaultRetryWaitTime
    RetryMaxWaitTime := defaultRetryMaxWaitTime
    Verbose := false }

/- Circuit breaker constants from src/internal/http/client.go. -/

def cbFailureThreshold : Nat := 3

def cbSuccessThreshold : Nat := 1

def cbResetTimeout : Nat := 30 * timeSecond

/-- Modelled from the spec: resty's `CircuitBreaker5xxPolicy`, the default
qualifying-failure policy — "any 5xx response counts as failure". The resty
source is not under src/; only its caller `NewClient` is. -/
def CircuitBreaker5xxPolicy (status : Nat) : Bool :=
  decide (500 ≤ status)

/-- Static circuit-breaker settings passed to `resty.NewCircuitBreakerWithCount`
in `NewClient`. -/
structure CircuitBreakerConf where
  failureThreshold : Nat
  successThreshold : Nat
  resetTimeout : Nat
  policy : Nat → Bool

/-- The resty client as configured by `NewClient` in
src/internal/http/client.go: timeout, retry count, retry wait bounds, debug
flag and the circuit breaker settings. -/
structure Client where
  timeout : Nat
  retryCount : Nat
  retryWaitTime : Nat
  retryMaxWaitTime : Nat
  debug : Bool
  circuitBreaker : CircuitBreakerConf

/-- `NewClient` from src/internal/http/client.go: substitutes `DefaultConfig`
for a nil config, configures the client from the config fields and installs a
circuit breaker with the package constants and the 5xx policy. Total: it
cannot fail on any input. -/
def NewClient (cfg : Option Config) : Client :=
  let c := match cfg with
    | none => DefaultConfig
    | some c => c
  { timeout := c.Timeout
    retryCount := c.RetryCount
    retryWaitTime := c.RetryWaitTime
    retryMaxWaitTime := c.RetryMaxWaitTime
    debug := c.Verbose
    circuitBreaker :=
      { failureThreshold := cbFailureThreshold
        successThreshold := cbSuccessThreshold
        resetTimeout := cbResetTimeout
        policy := CircuitBreaker5xxPolicy } }

/-- Modelled from the spec: the circuit breaker's runtime state. The breaker
implementation lives in the resty library, which is not under src/; this
models the spec's formal state machine (states Closed, Open, HalfOpen;
consecutive failure/success counters; timestamp of entering Open). `opened`
stands for the Open state (`open` is reserved in Lean). -/
inductive CircuitBreakerState where
  | closed
  | opened
  | halfOpen
  deriving DecidableEq, Repr

/-- Modelled from the spec: the mutable breaker record owned by the client. -/
structure CircuitBreaker where
  st : CircuitBreakerState
  failureThreshold : Nat
  successThreshold : Nat
  resetTimeout : Nat
  failures : Nat
  successes : Nat
  openedAt : Nat
  deriving DecidableEq, Repr

/-- Modelled from the spec: the breaker created together with the client —
initial state Closed, zero counters. -/
def cbInit (conf : CircuitBreakerConf) : CircuitBreaker :=
  { st := CircuitBreakerState.closed
    failureThreshold := conf.failureThreshold
    successThreshold := conf.successThreshold
    resetTimeout := conf.resetTimeout
    failures := 0
    successes := 0
    openedAt := 0 }

/-- Modelled from the spec: recording a qualifying failure. Closed: increment
the consecutive-failure count and trip to Open once it reaches the failure
threshold. HalfOpen: any qualifying failure reopens the breaker. Open: no
request runs, so nothing to record. -/
def cbOnFailure (now : Nat) (cb : CircuitBreaker) : CircuitBreaker :=
  match cb.st with
  | CircuitBreakerState.closed =>
    let f := cb.failures + 1
    if cb.failureThreshold ≤ f then
      { cb with st := CircuitBreakerState.opened, failures := f,
                successes := 0, openedAt := now }
    else { cb with failures := f }
  | CircuitBreakerState.opened => cb
  | CircuitBreakerState.halfOpen =>
    { cb with st := CircuitBreakerState.opened, failures := cb.failures + 1,
              successes := 0, openedAt := now }

/-- Modelled from the spec: recording a success. Closed: reset the
consecutive-failure count. HalfOpen: increment the consecutive-success count
and close the breaker once it reaches the success threshold. -/
def cbOnSuccess (cb : CircuitBreaker) : CircuitBreaker :=
  match cb.st with
  | CircuitBreakerState.closed => { cb with failures := 0 }
  | CircuitBreakerState.opened => cb
  | CircuitBreakerState.halfOpen =>
    let s := cb.successes + 1
    if cb.successThreshold ≤ s then
      { cb with st := CircuitBreakerState.closed, failures := 0, successes := 0 }
    else { cb with successes := s }

/-- Modelled from the spec: the fail-fast gate checked before a network
attempt. Closed and HalfOpen let the request through; Open lets it through
(moving to HalfOpen for a trial) only once the reset timeout has elapsed
since entering Open, and otherwise rejects it with no network attempt. -/
def cbAllow (now : Nat) (cb : CircuitBreaker) : Option CircuitBreaker :=
  match cb.st with
  | CircuitBreakerState.closed => some cb
  | CircuitBreakerState.halfOpen => some cb
  | CircuitBreakerState.opened =>
    if cb.openedAt + cb.resetTimeout ≤ now then
      some { cb with st := CircuitBreakerState.halfOpen, failures := 0, successes := 0 }
    else none

/-- Outcome of one underlying network attempt: a transport-level failure with
no HTTP response, or a final HTTP response. -/
inductive AttemptOutcome where
  | transportErr (m : String)
  | resp (status : Nat) (headers : List (String × String)) (body : String)
  deriving DecidableEq, Repr

/-- Terminal outcome of one logical client call: rejected fail-fast by the
open breaker, transport failure after exhausting all attempts, or an HTTP
response. -/
inductive CallResult where
  | failFast
  | transportFail (m : String)
  | gotResp (status : Nat) (headers : List (String × String)) (body : String)
  deriving DecidableEq, Repr

/-- Modelled from the spec: the client's retry loop. `fuel` attempts remain,
`i` attempts were already made, `lastMsg` is the message of the last transport
failure. Every attempt passes through the breaker gate first (retries do not
bypass the breaker); a transport failure is retried; a response is terminal
and is recorded with the breaker according to the qualifying-failure policy
`pol`. Exhausting the attempts surfaces the last transport failure. -/
def runAttempts (pol : Nat → Bool) (now : Nat) (att : Nat → AttemptOutcome) :
    Nat → Nat → CircuitBreaker → String → CallResult × Nat × CircuitBreaker
  | 0, i, cb, lastMsg => (CallResult.transportFail lastMsg, i, cb)
  | fuel + 1, i, cb, _lastMsg =>
    match cbAllow now cb with
    | none => (CallResult.failFast, i, cb)
    | some cb1 =>
      match att i with
      | AttemptOutcome.transportErr m =>
        runAttempts pol now att fuel (i + 1) cb1 m
      | AttemptOutcome.resp s hs b =>
        (CallResult.gotResp s hs b, i + 1,
          if pol s then cbOnFailure now cb1 else cbOnSuccess cb1)

/-- Modelled from the spec: one logical call through the client `cl`:
`retryCount + 1` total attempts, the breaker's qualifying-failure policy taken
from the client's breaker settings. Returns the terminal result, the number
of attempts that reached the transport, and the breaker state after. -/
def clientCall (cl : Client) (cb : CircuitBreaker) (now : Nat)
    (att : Nat → AttemptOutcome) : CallResult × Nat × CircuitBreaker :=
  runAttempts cl.circuitBreaker.policy now att (cl.retryCount + 1) 0 cb "request failed"

/-- Modelled from the spec: the error message surfaced when the open breaker
rejects a request fail-fast. -/
def breakerOpenMsg : String := "circuit breaker is open"

/-- `Fetcher.Fetch` composed with the client's breaker-gated retry loop: the
client call's terminal outcome is classified exactly as in fetch.go. Returns
the classified result, the number of attempts that reached the transport, and
the breaker state after the call. -/
def fetchVia (cl : Client) (url : String) (cb : CircuitBreaker) (now : Nat)
    (att : Nat → AttemptOutcome) :
    (String × Option OopsError) × Nat × CircuitBreaker :=
  match clientCall cl cb now att with
  | (CallResult.failFast, k, cb1) => (Fetch url (FetchOutcome.err breakerOpenMsg), k, cb1)
  | (CallResult.transportFail m, k, cb1) => (Fetch url (FetchOutcome.err m), k, cb1)
  | (CallResult.gotResp s hs b, k, cb1) => (Fetch url (FetchOutcome.resp s hs b), k, cb1)

end Llxt

namespace Llxt

/-- C1: for every status code obtained by Fetch, the classification is exact:
NotFound iff 404, RateLimited iff 429, the generic HTTP-error branch iff the
status is at least 400 and neither 404 nor 429, and the body is returned with
no error iff the status is below 400. -/
theorem fetch_status_classification (url : String) (s : Nat)
    (hs : List (String × String)) (b : String) :
    ((Fetch url (FetchOutcome.resp s hs b)).2.map OopsError.code = some CodeNotFound ↔ s = 404) ∧
    ((Fetch url (FetchOutcome.resp s hs b)).2.map OopsError.code = some CodeRateLimited ↔ s = 429) ∧
    ((Fetch url (FetchOutcome.resp s hs b)).2.map OopsError.code = some CodeNetworkFailure ↔
      (400 ≤ s ∧ s ≠ 404 ∧ s ≠ 429)) ∧
    (Fetch url (FetchOutcome.resp s hs b) = (b, none) ↔ s < 400) := by
  simp only [Fetch, statusNotFound, statusRateLimited, statusBadRequest]
  split_ifs with h1 h2 h3 <;>
    simp_all [CodeNotFound, CodeRateLimited, CodeNetworkFailure]

/-- C10: whenever Fetch returns an error, the content is the empty string; a
non-empty body is only returned together with no error. -/
theorem fetch_no_content_on_error (url : String) (out : FetchOutcome) :
    (Fetch url out).2 = none ∨ (Fetch url out).1 = "" := by
  cases out with
  | err m => right; rfl
  | resp s hs b =>
    simp only [Fetch]
    split_ifs <;> simp

/-- C5: FetchLLMsTxt with `full = false` always targets the primary URL; with
`full = true` it targets the alternate URL exactly when one is present and
falls back to the primary otherwise; in every case it delegates to Fetch on
the selected URL. -/
theorem fetchLLMsTxt_selection (outcomeOf : String → FetchOutcome) (url : String)
    (fullURL : Option String) :
    (FetchLLMsTxt outcomeOf url fullURL false = Fetch url (outcomeOf url)) ∧
    (∀ fu, fullURL = some fu →
      FetchLLMsTxt outcomeOf url fullURL true = Fetch fu (outcomeOf fu)) ∧
    (fullURL = none → FetchLLMsTxt outcomeOf url fullURL true = Fetch url (outcomeOf url)) := by
  refine ⟨?_, ?_, ?_⟩
  · cases fullURL <;> rfl
  · intro fu hfu; subst hfu; rfl
  · intro hnone; subst hnone; rfl

/-- C5 witness: with alternate `"a"` present and `full = true`, the call
delegates to Fetch on `"a"`. -/
theorem fetchLLMsTxt_selection_witness :
    FetchLLMsTxt (fun _ => FetchOutcome.resp 200 [] "x") "p" (some "a") true =
      Fetch "a" ((fun _ => FetchOutcome.resp 200 [] "x") "a") :=
  (fetchLLMsTxt_selection (fun _ => FetchOutcome.resp 200 [] "x") "p" (some "a")).2.1 "a" rfl

/-- C6 counterexample: on a 429 response with header `Retry-After: 5`, the
returned error is the rate-limited error but its `status` field is empty —
the 429 builder chain in fetch.go never attaches `.With("status", ...)`, so
the error does not carry the HTTP status code as the claim states. -/
theorem fetch_429_status_missing :
    (Fetch "u" (FetchOutcome.resp 429 [("Retry-After", "5")] "b")).2.map OopsError.code
        = some CodeRateLimited ∧
    (Fetch "u" (FetchOutcome.resp 429 [("Retry-After", "5")] "b")).2.map OopsError.status
        = some none :=
  ⟨rfl, rfl⟩

/-- C6 amended: on every 429 response, the rate-limited error carries the
target URL, the Retry-After header value (the empty string when the header is
absent), and the fixed advisory hint — but not the HTTP status code. -/
theorem fetch_429_error_fields (url : String) (hs : List (String × String)) (b : String) :
    Fetch url (FetchOutcome.resp 429 hs b) =
      ("", some { code := CodeRateLimited, url := some url, status := none,
                  retry_after := some (headerGet hs "Retry-After"),
                  hint := some "Wait before retrying or use a different source",
                  msg := "rate limited by server", wrapped := none }) :=
  rfl

/-- C7 counterexample: the transport-failure error and the HTTP-status error
for a 500 response carry the same code constant `CodeNetworkFailure`, so the
two cases are not distinct kinds in the code's error taxonomy. -/
theorem transport_and_http_error_same_code :
    (Fetch "u" (FetchOutcome.err "connection refused")).2.map OopsError.code
        = some CodeNetworkFailure ∧
    (Fetch "u" (FetchOutcome.resp 500 [] "")).2.map OopsError.code
        = some CodeNetworkFailure :=
  ⟨rfl, rfl⟩

/-- C7 amended: both the transport error and the generic HTTP-status error
carry code `CodeNetworkFailure`, but the two error values remain
distinguishable: the transport error has no status field and wraps the
underlying cause, while the HTTP-status error carries the status and wraps
nothing. -/
theorem transport_vs_http_error_distinguishable (url m : String) (s : Nat)
    (hs : List (String × String)) (b : String)
    (h400 : 400 ≤ s) (h404 : s ≠ 404) (h429 : s ≠ 429) :
    (Fetch url (FetchOutcome.err m)).2.map OopsError.code = some CodeNetworkFailure ∧
    (Fetch url (FetchOutcome.resp s hs b)).2.map OopsError.code = some CodeNetworkFailure ∧
    (Fetch url (FetchOutcome.err m)).2.map OopsError.status = some none ∧
    (Fetch url (FetchOutcome.resp s hs b)).2.map OopsError.status = some (some s) ∧
    (Fetch url (FetchOutcome.err m)).2.map OopsError.wrapped = some (some m) ∧
    (Fetch url (FetchOutcome.resp s hs b)).2.map OopsError.wrapped = some none := by
  refine ⟨rfl, ?_, rfl, ?_, rfl, ?_⟩ <;>
    simp [Fetch, statusNotFound, statusRateLimited, statusBadRequest, h404, h429, h400]

/-- C7 amended witness: transport failure versus a 500 response, both with
code `CodeNetworkFailure` yet with different status and wrapped fields. -/
theorem transport_vs_http_error_distinguishable_witness :
    (Fetch "u" (FetchOutcome.err "boom")).2.map OopsError.code = some CodeNetworkFailure ∧
    (Fetch "u" (FetchOutcome.resp 500 [] "z")).2.map OopsError.code = some CodeNetworkFailure ∧
    (Fetch "u" (FetchOutcome.err "boom")).2.map OopsError.status = some none ∧
    (Fetch "u" (FetchOutcome.resp 500 [] "z")).2.map OopsError.status = some (some 500) ∧
    (Fetch "u" (FetchOutcome.err "boom")).2.map OopsError.wrapped = some (some "boom") ∧
    (Fetch "u" (FetchOutcome.resp 500 [] "z")).2.map OopsError.wrapped = some none :=
  transport_vs_http_error_distinguishable "u" "boom" 500 [] "z"
    (by decide) (by decide) (by decide)

/-- C8: NewClient is total — every input, including an absent config, yields
the client built from an actual config — and the defaults applied for an
absent config are timeout 30s, retry count 3, base backoff 100ms and maximum
backoff 2s. -/
theorem newClient_total_and_defaults :
    (∀ cfg : Option Config, NewClient cfg = NewClient (some (cfg.getD DefaultConfig))) ∧
    (NewClient none).timeout = 30 * timeSecond ∧
    (NewClient none).retryCount = 3 ∧
    (NewClient none).retryWaitTime = 100 * timeMillisecond ∧
    (NewClient none).retryMaxWaitTime = 2 * timeSecond := by
  refine ⟨?_, rfl, rfl, rfl, rfl⟩
  intro cfg
  cases cfg <;> rfl

/-- C9: every client built by NewClient carries a circuit breaker with
failure threshold 3, success threshold 1, reset timeout 30s, and a
qualifying-failure policy that counts every 5xx response as a failure. -/
theorem newClient_breaker_settings (cfg : Option Config) :
    (NewClient cfg).circuitBreaker.failureThreshold = 3 ∧
    (NewClient cfg).circuitBreaker.successThreshold = 1 ∧
    (NewClient cfg).circuitBreaker.resetTimeout = 30 * timeSecond ∧
    ∀ s : Nat, 500 ≤ s → s ≤ 599 → (NewClient cfg).circuitBreaker.policy s = true := by
  refine ⟨rfl, rfl, rfl, ?_⟩
  intro s h1 _
  simp [NewClient, CircuitBreaker5xxPolicy, h1]

/-- C9 witness: the breaker of the default client counts status 500 as a
qualifying failure. -/
theorem newClient_breaker_settings_witness :
    (NewClient none).circuitBreaker.policy 500 = true :=
  (newClient_breaker_settings none).2.2.2 500 (by decide) (by decide)

/-- C2: the circuit breaker's step relation, as modelled from the spec: it
starts Closed; Closed moves to Open when consecutive qualifying failures
reach the failure threshold; Open moves to HalfOpen once the reset timeout
has elapsed since entering Open; HalfOpen moves to Closed when consecutive
successes reach the success threshold; HalfOpen moves back to Open on any
single qualifying failure; and no state is terminal. -/
theorem circuitBreaker_step_relation :
    (∀ conf : CircuitBreakerConf, (cbInit conf).st = CircuitBreakerState.closed) ∧
    (∀ (now : Nat) (cb : CircuitBreaker), cb.st = CircuitBreakerState.closed →
      cb.failureThreshold ≤ cb.failures + 1 →
      (cbOnFailure now cb).st = CircuitBreakerState.opened) ∧
    (∀ (now : Nat) (cb : CircuitBreaker), cb.st = CircuitBreakerState.opened →
      cb.openedAt + cb.resetTimeout ≤ now →
      cbAllow now cb = some { cb with st := CircuitBreakerState.halfOpen,
                                      failures := 0, successes := 0 }) ∧
    (∀ cb : CircuitBreaker, cb.st = CircuitBreakerState.halfOpen →
      cb.successThreshold ≤ cb.successes + 1 →
      (cbOnSuccess cb).st = CircuitBreakerState.closed) ∧
    (∀ (now : Nat) (cb : CircuitBreaker), cb.st = CircuitBreakerState.halfOpen →
      (cbOnFailure now cb).st = CircuitBreakerState.opened) ∧
    (∀ s : CircuitBreakerState, ∃ (cb : CircuitBreaker) (now : Nat), cb.st = s ∧
      ((cbOnFailure now cb).st ≠ s ∨ (cbOnSuccess cb).st ≠ s ∨
        ∃ cb1, cbAllow now cb = some cb1 ∧ cb1.st ≠ s)) := by
  refine ⟨fun conf => rfl, ?_, ?_, ?_, ?_, ?_⟩
  · intro now cb hst hthr
    simp [cbOnFailure, hst, hthr]
  · intro now cb hst helapsed
    simp [cbAllow, hst, helapsed]
  · intro cb hst hthr
    simp [cbOnSuccess, hst, hthr]
  · intro now cb hst
    simp [cbOnFailure, hst]
  · intro s
    cases s with
    | closed =>
      refine ⟨CircuitBreaker.mk CircuitBreakerState.closed 1 1 1 0 0 0, 0, rfl, Or.inl ?_⟩
      decide
    | opened =>
      refine ⟨CircuitBreaker.mk CircuitBreakerState.opened 1 1 1 1 0 0, 1, rfl,
        Or.inr (Or.inr ⟨CircuitBreaker.mk CircuitBreakerState.halfOpen 1 1 1 0 0 0,
          by decide, by decide⟩)⟩
    | halfOpen =>
      refine ⟨CircuitBreaker.mk CircuitBreakerState.halfOpen 1 1 1 0 0 0, 0, rfl, Or.inl ?_⟩
      decide

/-- C2 witness: each transition with a hypothesis, exercised at a concrete
breaker: Closed trips to Open at the third consecutive failure; Open moves to
HalfOpen once the reset timeout has elapsed; HalfOpen closes on a success at
threshold one; HalfOpen reopens on a failure. -/
theorem circuitBreaker_step_relation_witness :
    (cbOnFailure 7 (CircuitBreaker.mk CircuitBreakerState.closed 3 1 30 2 0 0)).st
        = CircuitBreakerState.opened ∧
    cbAllow 31 (CircuitBreaker.mk CircuitBreakerState.opened 3 1 30 3 0 1)
        = some (CircuitBreaker.mk CircuitBreakerState.halfOpen 3 1 30 0 0 1) ∧
    (cbOnSuccess (CircuitBreaker.mk CircuitBreakerState.halfOpen 3 1 30 0 0 1)).st
        = CircuitBreakerState.closed ∧
    (cbOnFailure 9 (CircuitBreaker.mk CircuitBreakerState.halfOpen 3 1 30 0 0 1)).st
        = CircuitBreakerState.opened :=
  ⟨circuitBreaker_step_relation.2.1 7 _ rfl (by decide),
   circuitBreaker_step_relation.2.2.1 31 _ rfl (by decide),
   circuitBreaker_step_relation.2.2.2.1 _ rfl (by decide),
   circuitBreaker_step_relation.2.2.2.2.1 9 _ rfl⟩

/-- C3: while the breaker is Open and the reset timeout has not elapsed,
every call through the client is rejected immediately: the result is the
transport-kind error wrapping the breaker fail-fast cause, zero attempts
reach the transport (so no retry attempt is consumed), and the breaker is
unchanged. -/
theorem breaker_open_fail_fast (cl : Client) (url : String) (cb : CircuitBreaker)
    (now : Nat) (att : Nat → AttemptOutcome)
    (hopen : cb.st = CircuitBreakerState.opened)
    (helapsed : now < cb.openedAt + cb.resetTimeout) :
    fetchVia cl url cb now att =
      (("", some { code := CodeNetworkFailure, url := some url, status := none,
                   retry_after := none, hint := none,
                   msg := "failed to fetch content", wrapped := some breakerOpenMsg }),
       0, cb) := by
  have hlt : ¬ (cb.openedAt + cb.resetTimeout ≤ now) := by omega
  have hallow : cbAllow now cb = none := by
    simp [cbAllow, hopen, hlt]
  simp [fetchVia, clientCall, runAttempts, hallow, Fetch]

/-- Helper: a run whose first `k` attempts are transport failures and whose
attempt `i + k` is a response returns that response after exactly `i + k + 1`
attempts, provided the breaker starts Closed (transport failures neither
change the breaker nor close the gate). -/
lemma runAttempts_transport_prefix (pol : Nat → Bool) (now : Nat)
    (att : Nat → AttemptOutcome) (s : Nat) (hs : List (String × String)) (b : String) :
    ∀ (k i : Nat) (cb : CircuitBreaker) (msg : String),
      cb.st = CircuitBreakerState.closed →
      (∀ j, j < k → ∃ m, att (i + j) = AttemptOutcome.transportErr m) →
      att (i + k) = AttemptOutcome.resp s hs b →
      runAttempts pol now att (k + 1) i cb msg =
        (CallResult.gotResp s hs b, i + k + 1,
          if pol s then cbOnFailure now cb else cbOnSuccess cb) := by
  intro k
  induction k with
  | zero =>
    intro i cb msg hclosed _ hresp
    have hai : att i = AttemptOutcome.resp s hs b := by simpa using hresp
    simp [runAttempts, cbAllow, hclosed, hai]
  | succ k ih =>
    intro i cb msg hclosed hfail hresp
    obtain ⟨m, hm⟩ := hfail 0 (Nat.succ_pos k)
    have hai : att i = AttemptOutcome.transportErr m := by simpa using hm
    have hstep : runAttempts pol now att (k + 1 + 1) i cb msg =
        runAttempts pol now att (k + 1) (i + 1) cb m := by
      simp [runAttempts, cbAllow, hclosed, hai]
    rw [hstep]
    have hfail1 : ∀ j, j < k → ∃ m1, att (i + 1 + j) = AttemptOutcome.transportErr m1 := by
      intro j hj
      have h := hfail (j + 1) (by omega)
      have hidx : i + (j + 1) = i + 1 + j := by omega
      rwa [hidx] at h
    have hresp1 : att (i + 1 + k) = AttemptOutcome.resp s hs b := by
      have hidx : i + 1 + k = i + (k + 1) := by omega
      rwa [hidx]
    rw [ih (i + 1) cb m hclosed hfail1 hresp1]
    have hidx : i + 1 + k + 1 = i + (k + 1) + 1 := by omega
    rw [hidx]

/-- C4: with retryCount = n, a target that fails at the transport level on
each of the first n attempts and produces a successful response on attempt
n + 1 yields success with the content of that final attempt, after exactly
n + 1 attempts; the caller sees only the single final outcome. -/
theorem retry_success_at_final_attempt (cfg : Config) (n : Nat) (url : String)
    (now : Nat) (att : Nat → AttemptOutcome) (s : Nat) (hs : List (String × String))
    (b : String)
    (hn : cfg.RetryCount = n)
    (hfail : ∀ i, i < n → ∃ m, att i = AttemptOutcome.transportErr m)
    (hresp : att n = AttemptOutcome.resp s hs b)
    (hok : s < 400) :
    (fetchVia (NewClient (some cfg)) url
        (cbInit (NewClient (some cfg)).circuitBreaker) now att).1 = (b, none) ∧
    (fetchVia (NewClient (some cfg)) url
        (cbInit (NewClient (some cfg)).circuitBreaker) now att).2.1 = n + 1 := by
  have hcb : (cbInit (NewClient (some cfg)).circuitBreaker).st = CircuitBreakerState.closed := rfl
  have hfail0 : ∀ j, j < n → ∃ m, att (0 + j) = AttemptOutcome.transportErr m := by
    intro j hj
    simpa using hfail j hj
  have hresp0 : att (0 + n) = AttemptOutcome.resp s hs b := by simpa using hresp
  have hrun := runAttempts_transport_prefix CircuitBreaker5xxPolicy now att s hs b n 0
      (cbInit (NewClient (some cfg)).circuitBreaker) "request failed" hcb hfail0 hresp0
  have hcall : clientCall (NewClient (some cfg))
        (cbInit (NewClient (some cfg)).circuitBreaker) now att
      = runAttempts CircuitBreaker5xxPolicy now att (n + 1) 0
          (cbInit (NewClient (some cfg)).circuitBreaker) "request failed" := by
    simp [clientCall, NewClient, hn]
  have h1 : ¬ (s = statusNotFound) := by simp [statusNotFound]; omega
  have h2 : ¬ (s = statusRateLimited) := by simp [statusRateLimited]; omega
  have h3 : ¬ (statusBadRequest ≤ s) := by simp [statusBadRequest]; omega
  have hclass : Fetch url (FetchOutcome.resp s hs b) = (b, none) := by
    simp [Fetch, h1, h2, h3]
  refine ⟨?_, ?_⟩ <;> simp [fetchVia, hcall, hrun, hclass]

/-- C4 witness: retryCount 2, two transport failures then a 200 response with
body "hello" on the third attempt: the call returns ("hello", no error) after
exactly three attempts. -/
theorem retry_success_at_final_attempt_witness :
    (fetchVia (NewClient (some (Config.mk defaultTimeout 2 defaultRetryWaitTime
        defaultRetryMaxWaitTime false))) "u"
      (cbInit (NewClient (some (Config.mk defaultTimeout 2 defaultRetryWaitTime
        defaultRetryMaxWaitTime false))).circuitBreaker) 0
      (fun i => if i < 2 then AttemptOutcome.transportErr "refused"
        else AttemptOutcome.resp 200 [] "hello")).1 = ("hello", none) ∧
    (fetchVia (NewClient (some (Config.mk defaultTimeout 2 defaultRetryWaitTime
        defaultRetryMaxWaitTime false))) "u"
      (cbInit (NewClient (some (Config.mk defaultTimeout 2 defaultRetryWaitTime
        defaultRetryMaxWaitTime false))).circuitBreaker) 0
      (fun i => if i < 2 then AttemptOutcome.transportErr "refused"
        else AttemptOutcome.resp 200 [] "hello")).2.1 = 2 + 1 :=
  retry_success_at_final_attempt
    (Config.mk defaultTimeout 2 defaultRetryWaitTime defaultRetryMaxWaitTime false)
    2 "u" 0
    (fun i => if i < 2 then AttemptOutcome.transportErr "refused"
      else AttemptOutcome.resp 200 [] "hello")
    200 [] "hello" rfl
    (fun i hi => ⟨"refused", by simp [hi]⟩) rfl (by decide)

/-- C3 witness: a concrete open breaker (opened at time 0, reset timeout 30s)
rejects a call at time 5 fail-fast with zero attempts. -/
theorem breaker_open_fail_fast_witness :
    fetchVia (NewClient none) "u"
      (CircuitBreaker.mk CircuitBreakerState.opened 3 1 (30 * timeSecond) 3 0 0)
      5 (fun _ => AttemptOutcome.transportErr "x") =
      (("", some { code := CodeNetworkFailure, url := some "u", status := none,
                   retry_after := none, hint := none,
                   msg := "failed to fetch content", wrapped := some breakerOpenMsg }),
       0,
       CircuitBreaker.mk CircuitBreakerState.opened 3 1 (30 * timeSecond) 3 0 0) :=
  breaker_open_fail_fast (NewClient none) "u" _ 5 _ rfl (by decide)

end Llxt
